import Mathlib

/-!
Shallow embedding of `src/file_server.py` (leaf-mvp).

The classifier (`FileTypeIdentifier`) is modelled over `List Nat` byte
buffers and `String` filenames.  Python `float` arithmetic in
`format_size` only ever divides by 1024 (a power of two), so for inputs
below 2^53 every intermediate value is exactly representable and the
computation agrees with exact rational arithmetic; we carry the value as
an exact `num / den` pair of naturals.  `f"{x:.1f}"` rounds
half-to-even, modelled by `fmtOneDecimal`.

File-system access (`path.exists()`, `open`/`read`, `stat().st_size`) is
modelled by an explicit `FileState`; `mimetypes.guess_type` is an
external stdlib table and is passed in as an abstract
`mimeGuess : String → Option String` parameter.
-/

/-- `FileTypeIdentifier.MAGIC_BYTES`: ordered table of
(byte prefix, (filetype, category)); a Python dict iterates in insertion
order, so we keep it as a list. -/
def MAGIC_BYTES : List (List Nat × String × String) :=
  [ ([0x89, 0x50, 0x4E, 0x47, 0x0D, 0x0A, 0x1A, 0x0A], "PNG", "Image"),
    ([0xff, 0xd8, 0xff], "JPEG", "Image"),
    ([0x47, 0x49, 0x46, 0x38, 0x37, 0x61], "GIF87a", "Image"),
    ([0x47, 0x49, 0x46, 0x38, 0x39, 0x61], "GIF89a", "Image"),
    ([0x25, 0x50, 0x44, 0x46], "PDF", "Document"),
    ([0x50, 0x4B, 0x03, 0x04], "ZIP/DOCX/XLSX", "Archive"),
    ([0x52, 0x61, 0x72, 0x21, 0x1a, 0x07], "RAR", "Archive"),
    ([0x37, 0x7a, 0xbc, 0xaf, 0x27, 0x1c], "7Z", "Archive"),
    ([0x00, 0x00, 0x00, 0x20, 0x66, 0x74, 0x79, 0x70], "MP4", "Video"),
    ([0x1a, 0x45, 0xdf, 0xa3], "MKV", "Video"),
    ([0x52, 0x49, 0x46, 0x46], "AVI/WAV", "Media"),
    ([0xff, 0xfb], "MP3", "Audio"),
    ([0x66, 0x4C, 0x61, 0x43], "FLAC", "Audio"),
    ([0x4D, 0x5A], "EXE", "Executable"),
    ([0x7f, 0x45, 0x4C, 0x46], "ELF", "Executable"),
    ([0x42, 0x4D], "BMP", "Image"),
    ([0x49, 0x49, 0x2a, 0x00], "TIFF", "Image"),
    ([0x4D, 0x4D, 0x00, 0x2a], "TIFF", "Image"),
    ([0x3C, 0x3F, 0x78, 0x6D, 0x6C], "XML", "Code"),
    ([0x3C, 0x21, 0x44, 0x4F, 0x43, 0x54, 0x59, 0x50, 0x45], "HTML", "Code"),
    ([0x7B], "JSON", "Code"),
    ([0x73, 0x6F, 0x6C, 0x69, 0x64, 0x20], "STL", "3D Model"),
    ([0x67, 0x6C, 0x54, 0x46], "glTF", "3D Model") ]

/-- `FileTypeIdentifier.EXTENSION_MAP`: lowercase extension → (filetype, category). -/
def EXTENSION_MAP : List (String × String × String) :=
  [ ("png", "PNG", "Image"), ("jpg", "JPEG", "Image"), ("jpeg", "JPEG", "Image"),
    ("gif", "GIF", "Image"), ("bmp", "BMP", "Image"), ("svg", "SVG", "Image"),
    ("tiff", "TIFF", "Image"), ("webp", "WebP", "Image"), ("ico", "ICO", "Image"),
    ("pdf", "PDF", "Document"), ("docx", "DOCX", "Document"), ("doc", "DOC", "Document"),
    ("xlsx", "XLSX", "Spreadsheet"), ("xls", "XLS", "Spreadsheet"), ("csv", "CSV", "Spreadsheet"),
    ("txt", "TXT", "Text"), ("pptx", "PPTX", "Presentation"), ("ppt", "PPT", "Presentation"),
    ("mp4", "MP4", "Video"), ("mkv", "MKV", "Video"), ("avi", "AVI", "Video"),
    ("mov", "MOV", "Video"), ("mp3", "MP3", "Audio"), ("wav", "WAV", "Audio"),
    ("flac", "FLAC", "Audio"), ("m4a", "M4A", "Audio"), ("webm", "WebM", "Video"),
    ("py", "Python", "Code"), ("js", "JavaScript", "Code"), ("ts", "TypeScript", "Code"),
    ("cpp", "C++", "Code"), ("c", "C", "Code"), ("java", "Java", "Code"),
    ("go", "Go", "Code"), ("rs", "Rust", "Code"), ("php", "PHP", "Code"),
    ("sh", "Shell", "Script"), ("bat", "Batch", "Script"), ("ps1", "PowerShell", "Script"),
    ("v", "Verilog", "HDL"), ("vh", "Verilog Header", "HDL"), ("vhd", "VHDL", "HDL"),
    ("sv", "SystemVerilog", "HDL"),
    ("stl", "STL", "3D Model"), ("obj", "OBJ", "3D Model"), ("fbx", "FBX", "3D Model"),
    ("gltf", "glTF", "3D Model"), ("glb", "glTF Binary", "3D Model"), ("ply", "PLY", "3D Model"),
    ("blend", "Blender", "3D Model"), ("dae", "Collada", "3D Model"), ("usdz", "USDZ", "3D Model"),
    ("zip", "ZIP", "Archive"), ("rar", "RAR", "Archive"), ("7z", "7Z", "Archive"),
    ("m", "MATLAB", "Code"), ("mat", "MATLAB Data", "Data"),
    ("json", "JSON", "Code"), ("xml", "XML", "Code"), ("html", "HTML", "Code"),
    ("sql", "SQL", "Database") ]

/-- One decimal place, half-to-even: models CPython `f"{x:.1f}"` on the
exactly represented nonnegative value `num / den` (`den` positive).
`10 * num / den` is the floor of ten times the value and
`10 * num % den` its remainder, so the three-way comparison against
`den / 2` is exactly the round-half-to-even rule. -/
def fmtOneDecimal (num den : Nat) : String :=
  let t10 := 10 * num
  let fl := t10 / den
  let rem := t10 % den
  let r :=
    if den < 2 * rem then fl + 1
    else if 2 * rem < den then fl
    else if fl % 2 = 0 then fl else fl + 1
  Nat.repr (r / 10) ++ "." ++ Nat.repr (r % 10)

/-- The loop body of `FileTypeIdentifier.format_size`: walk the unit
list, returning at the first unit where the value is below 1024,
dividing by 1024 otherwise; after the list is exhausted, report TB.
The running float is the exact fraction `num / den` (each Python
division is by 1024, a power of two, hence exact below 2^53), so the
guard `value < 1024` is `num < 1024 * den` and the division multiplies
`den` by 1024. -/
def format_size_aux : List String → Nat → Nat → String
  | [], num, den => fmtOneDecimal num den ++ " TB"
  | u :: us, num, den =>
    if num < 1024 * den then fmtOneDecimal num den ++ " " ++ u
    else format_size_aux us num (1024 * den)

/-- `FileTypeIdentifier.format_size` on a nonnegative byte count. -/
def format_size (n : Nat) : String :=
  format_size_aux ["B", "KB", "MB", "GB"] n 1

/-- Index of the last '.' in a list of characters, if any. -/
def rfindDot : List Char → Option Nat
  | [] => none
  | c :: cs =>
    match rfindDot cs with
    | some i => some (i + 1)
    | none => if c = '.' then some 0 else none

/-- `pathlib.PurePath.suffix` on a final path component: the part of the
name from its last '.', except when the dot is the first or the last
character (then there is no suffix). -/
def pathSuffix (name : String) : String :=
  match rfindDot name.data with
  | some i =>
    if 0 < i ∧ i < name.data.length - 1 then String.mk (name.data.drop i) else ""
  | none => ""

/-- `path.suffix[1:].lower()` from `identify_file`. -/
def fileExt (name : String) : String :=
  String.mk (((pathSuffix name).data.drop 1).map Char.toLower)

/-- `ext.upper()` from `identify_file`. -/
def extUpper (s : String) : String :=
  String.mk (s.data.map Char.toUpper)

/-- The dictionary returned by `identify_file` on the success path. -/
structure ClassificationResult where
  filename : String
  filesize_bytes : Nat
  filesize : String
  extension : String
  filetype : String
  category : String
  mime_type : String
  detection_method : String
deriving DecidableEq

/-- `identify_file` returns either an error dict or a classification dict. -/
inductive IdentifyResult where
  | error (msg : String)
  | ok (r : ClassificationResult)
deriving DecidableEq

/-- The file system as seen by `identify_file`: whether `path.exists()`,
whether `open`/`read` raises (and the exception text), the file's bytes,
and `path.stat().st_size`. -/
structure FileState where
  pathExists : Bool
  readError : Option String
  content : List Nat
  size : Nat

/-- The magic-bytes loop of `identify_file`: first table entry whose
byte prefix starts `header`, if any. -/
def findMagic (header : List Nat) : Option (String × String) :=
  (MAGIC_BYTES.find? (fun m => m.1.isPrefixOf header)).map (fun m => m.2)

/-- `FileTypeIdentifier.identify_file`.  `fname` is the final path
component (`path.name`); `mimeGuess` stands for
`mimetypes.guess_type`. -/
def identify_file (mimeGuess : String → Option String) (fname : String)
    (st : FileState) : IdentifyResult :=
  if st.pathExists = false then .error ("File not found: " ++ fname)
  else
    match st.readError with
    | some e => .error ("Cannot read file: " ++ e)
    | none =>
      let header := st.content.take 1024
      let magic_result := findMagic header
      let ext := fileExt fname
      let ext_result := (EXTENSION_MAP.lookup ext)
      let fc :=
        match magic_result with
        | some fc => fc
        | none =>
          match ext_result with
          | some fc => fc
          | none => ("UNKNOWN", "Unknown")
      .ok {
        filename := fname,
        filesize_bytes := st.size,
        filesize := format_size st.size,
        extension := extUpper ext,
        filetype := fc.1,
        category := fc.2,
        mime_type := (mimeGuess fname).getD "application/octet-stream",
        detection_method := if magic_result.isSome then "magic_bytes" else "extension" }

/-- The `stats` dict built at the end of the `/analyze` route. -/
structure AggregateStats where
  count : Nat
  total_size : String
  categories : List (String × Nat)
deriving DecidableEq

/-- `r.get('category', 'Unknown')`: an error dict has no category key. -/
def getCategory : IdentifyResult → String
  | .error _ => "Unknown"
  | .ok r => r.category

/-- `r.get('filesize_bytes', 0)`: an error dict has no size key. -/
def getFilesizeBytes : IdentifyResult → Nat
  | .error _ => 0
  | .ok r => r.filesize_bytes

/-- `categories[cat] = categories.get(cat, 0) + 1` on an
insertion-ordered dict modelled as an association list. -/
def bumpCategory : List (String × Nat) → String → List (String × Nat)
  | [], c => [(c, 1)]
  | (k, v) :: rest, c =>
    if k == c then (k, v + 1) :: rest else (k, v) :: bumpCategory rest c

/-- The category-counting loop of `/analyze`. -/
def categoriesOf (results : List IdentifyResult) : List (String × Nat) :=
  results.foldl (fun acc r => bumpCategory acc (getCategory r)) []

/-- The `stats` block of `/analyze`: count, formatted total size,
category counts. -/
def computeStats (results : List IdentifyResult) : AggregateStats :=
  { count := results.length,
    total_size := format_size ((results.map getFilesizeBytes).sum),
    categories := categoriesOf results }

/-- One uploaded file in the `/analyze` request: its client filename and
its bytes. -/
structure Upload where
  filename : String
  content : List Nat

/-- The `/analyze` route: skip empty filenames, save each file (so it
exists, is readable, holds the uploaded bytes, and `st_size` is their
count), classify it under its `secure_filename`, then build stats over
the collected results.  `sec` stands for `werkzeug.secure_filename`. -/
def analyze_files (mimeGuess : String → Option String) (sec : String → String)
    (uploads : List Upload) : List IdentifyResult × AggregateStats :=
  let results := uploads.foldl
    (fun acc file =>
      if file.filename = "" then acc
      else acc ++ [identify_file mimeGuess (sec file.filename)
        { pathExists := true, readError := none,
          content := file.content, size := file.content.length }])
    []
  (results, computeStats results)

/-- A parsed `/run` request body: the dict may lack keys. -/
structure RunRequest where
  script : Option String
  language : Option String
  stdin : Option String

/-- Outcome of the `requests.post` call to the JDoodle API, as the
`try`/`except` clauses of `run_code` distinguish it. -/
inductive UpstreamOutcome where
  | ok (body : String)
  | timeout
  | requestError (msg : String)
  | otherError (msg : String)

/-- An HTTP response from `/run`: a relayed JDoodle JSON body, or an
`{'error': msg}` JSON body, each with a status code. -/
inductive RunResponse where
  | success (body : String) (status : Nat)
  | errorJson (msg : String) (status : Nat)
deriving DecidableEq

/-- The `/run` route: validate the request, then map each upstream
outcome as the `try`/`except` clauses do. -/
def run_code (data : Option RunRequest) (outcome : UpstreamOutcome) : RunResponse :=
  match data with
  | none => .errorJson "Missing script or language" 400
  | some d =>
    if d.script = none ∨ d.language = none then
      .errorJson "Missing script or language" 400
    else
      match outcome with
      | .ok body => .success body 200
      | .timeout => .errorJson "JDoodle API timeout" 504
      | .requestError e => .errorJson ("JDoodle API error: " ++ e) 502
      | .otherError e => .errorJson e 500

/-- Spec-side description of `format_size`: the ordered unit sequence. -/
def units_list : List String := ["B", "KB", "MB", "GB", "TB"]

/-- Spec-side description of `format_size`: the first unit whose
threshold the value is below (TB regardless). -/
def unit_index (n : Nat) : Nat :=
  if n < 1024 then 0
  else if n < 1048576 then 1
  else if n < 1073741824 then 2
  else if n < 1099511627776 then 3
  else 4

/-- Spec-side description of `format_size`: divide once by
1024^unit_index, round to one decimal, append the unit. -/
def format_size_spec (n : Nat) : String :=
  fmtOneDecimal n (1024 ^ unit_index n) ++ " " ++ (units_list.getD (unit_index n) "")

/-- The unit of a `format_size` output: the first unit in `units_list`
(with its separating space) that the string ends with, as an index into
`units_list`. -/
def unitIndexOf (s : String) : Nat :=
  units_list.findIdx (fun u => (" " ++ u).data.isSuffixOf s.data)

/-- Spec-side description of the extension used by claim C5: the
lowercased part after the last '.', empty when there is no '.'. -/
def extensionPerSpec (name : String) : String :=
  match rfindDot name.data with
  | some i => String.mk ((name.data.drop (i + 1)).map Char.toLower)
  | none => ""

theorem unit_index_lt5 (n : Nat) : unit_index n < 5 := by
  unfold unit_index
  split_ifs <;> omega

theorem unit_index_mono {a b : Nat} (h : a ≤ b) : unit_index a ≤ unit_index b := by
  unfold unit_index
  split_ifs <;> omega

theorem format_size_eq_spec (n : Nat) : format_size n = format_size_spec n := by
  by_cases h1 : n < 1024
  · norm_num [format_size, format_size_aux, format_size_spec, unit_index, units_list, h1]
  · by_cases h2 : n < 1048576
    · norm_num [format_size, format_size_aux, format_size_spec, unit_index, units_list, h1, h2]
    · by_cases h3 : n < 1073741824
      · norm_num [format_size, format_size_aux, format_size_spec, unit_index, units_list,
          h1, h2, h3]
      · by_cases h4 : n < 1099511627776
        · norm_num [format_size, format_size_aux, format_size_spec, unit_index, units_list,
            h1, h2, h3, h4]
        · norm_num [format_size, format_size_aux, format_size_spec, unit_index, units_list,
            h1, h2, h3, h4]
          rw [String.append_assoc]
          rfl

theorem not_suffix_of_append {α : Type} (f uj uk : List α)
    (h1 : ¬ uj <:+ uk) (h2 : ¬ uk <:+ uj) : ¬ uj <:+ f ++ uk := by
  intro hs
  rcases List.suffix_or_suffix_of_suffix hs (List.suffix_append f uk) with h | h
  · exact h1 h
  · exact h2 h

theorem unitIndexOf_units (f : String) (k : Nat) (hk : k < 5) :
    unitIndexOf (f ++ " " ++ units_list.getD k "") = k := by
  have hdata : ∀ u : String, (f ++ " " ++ u).data = f.data ++ (' ' :: u.data) := by
    intro u
    simp [String.data_append]
  have htrue : ∀ (g uk : List Char), uk.isSuffixOf (g ++ uk) = true := by
    intro g uk
    simp [List.isSuffixOf_iff_suffix, List.suffix_append]
  have hfalse : ∀ (g uj uk : List Char), ¬ uj <:+ uk → ¬ uk <:+ uj →
      uj.isSuffixOf (g ++ uk) = false := by
    intro g uj uk h1 h2
    simp only [List.isSuffixOf_iff_suffix, Bool.eq_false_iff, ne_eq, decide_eq_true_eq]
    exact not_suffix_of_append g uj uk h1 h2
  interval_cases k
  · simp [unitIndexOf, units_list, List.findIdx_cons, hdata,
      htrue f.data ([' ', 'B'])]
  · simp [unitIndexOf, units_list, List.findIdx_cons, hdata,
      htrue f.data ([' ', 'K', 'B']),
      hfalse f.data ([' ', 'B']) ([' ', 'K', 'B']) (by decide) (by decide)]
  · simp [unitIndexOf, units_list, List.findIdx_cons, hdata,
      htrue f.data ([' ', 'M', 'B']),
      hfalse f.data ([' ', 'B']) ([' ', 'M', 'B']) (by decide) (by decide),
      hfalse f.data ([' ', 'K', 'B']) ([' ', 'M', 'B']) (by decide) (by decide)]
  · simp [unitIndexOf, units_list, List.findIdx_cons, hdata,
      htrue f.data ([' ', 'G', 'B']),
      hfalse f.data ([' ', 'B']) ([' ', 'G', 'B']) (by decide) (by decide),
      hfalse f.data ([' ', 'K', 'B']) ([' ', 'G', 'B']) (by decide) (by decide),
      hfalse f.data ([' ', 'M', 'B']) ([' ', 'G', 'B']) (by decide) (by decide)]
  · simp [unitIndexOf, units_list, List.findIdx_cons, hdata,
      htrue f.data ([' ', 'T', 'B']),
      hfalse f.data ([' ', 'B']) ([' ', 'T', 'B']) (by decide) (by decide),
      hfalse f.data ([' ', 'K', 'B']) ([' ', 'T', 'B']) (by decide) (by decide),
      hfalse f.data ([' ', 'M', 'B']) ([' ', 'T', 'B']) (by decide) (by decide),
      hfalse f.data ([' ', 'G', 'B']) ([' ', 'T', 'B']) (by decide) (by decide)]

/-- C2: `format_size` repeatedly divides by 1024 through the ordered
units B, KB, MB, GB, TB, stops at the first unit whose value is below
1024 (TB regardless), and returns the one-decimal rounding followed by
a space and the unit; in particular 0 → "0.0 B", 1536 → "1.5 KB",
1048576 → "1.0 MB", 1073741824 → "1.0 GB". -/
theorem format_size_follows_spec :
    (∀ n : Nat, format_size n = format_size_spec n) ∧
    format_size 0 = "0.0 B" ∧ format_size 1536 = "1.5 KB" ∧
    format_size 1048576 = "1.0 MB" ∧ format_size 1073741824 = "1.0 GB" :=
  ⟨format_size_eq_spec, by decide, by decide, by decide, by decide⟩

/-- C8: the unit of `format_size` is monotone: for 0 ≤ a < b, the index
of `format_size a`'s unit in B, KB, MB, GB, TB is at most the index of
`format_size b`'s unit. -/
theorem format_size_unit_monotone (a b : Nat) (h : a < b) :
    unitIndexOf (format_size a) ≤ unitIndexOf (format_size b) := by
  rw [format_size_eq_spec a, format_size_eq_spec b]
  unfold format_size_spec
  rw [unitIndexOf_units _ _ (unit_index_lt5 a), unitIndexOf_units _ _ (unit_index_lt5 b)]
  exact unit_index_mono h.le

/-- Witness for C8 at a = 0 < b = 2048. -/
theorem format_size_unit_monotone_witness :
    unitIndexOf (format_size 0) ≤ unitIndexOf (format_size 2048) :=
  format_size_unit_monotone 0 2048 (by decide)

theorem find_first_of_mem {α : Type} (p : α → Bool) (l : List α) (e : α)
    (he : e ∈ l) (hpe : p e = true) (hu : ∀ x ∈ l, p x = true → x = e) :
    l.find? p = some e := by
  induction l with
  | nil => cases he
  | cons a t ih =>
    by_cases hpa : p a = true
    · have ha : a = e := hu a (List.mem_cons_self a t) hpa
      subst ha
      simp [List.find?, hpa]
    · have hne : e ≠ a := fun h => hpa (h ▸ hpe)
      have het : e ∈ t := by
        rcases List.mem_cons.mp he with h | h
        · exact absurd h hne
        · exact h
      have hfa : p a = false := by simpa using hpa
      simp only [List.find?, hfa]
      exact ih het (fun x hx hpx => hu x (List.mem_cons_of_mem a hx) hpx)

theorem magic_incomparable :
    ∀ a ∈ MAGIC_BYTES, ∀ b ∈ MAGIC_BYTES, a.1 <+: b.1 → a = b := by decide

theorem magic_match_unique (h : List Nat) (e1 e2 : List Nat × String × String)
    (h1 : e1 ∈ MAGIC_BYTES) (h2 : e2 ∈ MAGIC_BYTES)
    (p1 : e1.1 <+: h) (p2 : e2.1 <+: h) : e1 = e2 := by
  rcases List.prefix_or_prefix_of_prefix p1 p2 with hp | hp
  · exact magic_incomparable e1 h1 e2 h2 hp
  · exact (magic_incomparable e2 h2 e1 h1 hp).symm

theorem findMagic_eq (header : List Nat) (e : List Nat × String × String)
    (he : e ∈ MAGIC_BYTES) (hp : e.1 <+: header) :
    findMagic header = some e.2 := by
  have hfind : MAGIC_BYTES.find? (fun m => m.1.isPrefixOf header) = some e := by
    apply find_first_of_mem _ _ e he
    · simpa [List.isPrefixOf_iff_prefix] using hp
    · intro x hx hpx
      exact magic_match_unique header x e hx he
        (by simpa [List.isPrefixOf_iff_prefix] using hpx) hp
  simp [findMagic, hfind]

theorem identify_file_magic (mg : String → Option String) (fname : String)
    (st : FileState) (e : List Nat × String × String)
    (hex : st.pathExists = true) (hre : st.readError = none)
    (he : e ∈ MAGIC_BYTES) (hp : e.1 <+: st.content.take 1024) :
    identify_file mg fname st = .ok {
      filename := fname, filesize_bytes := st.size,
      filesize := format_size st.size, extension := extUpper (fileExt fname),
      filetype := e.2.1, category := e.2.2,
      mime_type := (mg fname).getD "application/octet-stream",
      detection_method := "magic_bytes" } := by
  have hm := findMagic_eq _ e he hp
  simp [identify_file, hex, hre, hm]

/-- C1 (amended): for every header starting with a prefix in the
signature table and every filename, `identify_file` returns that
entry's label and category with `detection_method = "magic_bytes"`
(the code's tag for signature detection), regardless of extension; in
particular the PNG-header scenario with filename "photo.txt" and size
2048 yields label "PNG", category "Image", method "magic_bytes",
formatted size "2.0 KB". -/
theorem signature_match_takes_precedence :
    (∀ (mg : String → Option String) (fname : String) (st : FileState)
        (e : List Nat × String × String),
        st.pathExists = true → st.readError = none →
        e ∈ MAGIC_BYTES → e.1 <+: st.content.take 1024 →
        identify_file mg fname st = .ok {
          filename := fname, filesize_bytes := st.size,
          filesize := format_size st.size, extension := extUpper (fileExt fname),
          filetype := e.2.1, category := e.2.2,
          mime_type := (mg fname).getD "application/octet-stream",
          detection_method := "magic_bytes" }) ∧
    identify_file (fun _ => none) "photo.txt"
        { pathExists := true, readError := none,
          content := [0x89, 0x50, 0x4E, 0x47, 0x0D, 0x0A, 0x1A, 0x0A, 0, 0, 0, 0],
          size := 2048 } =
      .ok { filename := "photo.txt", filesize_bytes := 2048, filesize := "2.0 KB",
            extension := "TXT", filetype := "PNG", category := "Image",
            mime_type := "application/octet-stream", detection_method := "magic_bytes" } :=
  ⟨fun mg fname st e hex hre he hp => identify_file_magic mg fname st e hex hre he hp,
   by decide⟩

/-- Witness for C1 at the JPEG entry, header [0xff, 0xd8, 0xff, 1, 2],
filename "x.bin". -/
theorem signature_match_takes_precedence_witness :
    ([0xff, 0xd8, 0xff], ("JPEG", "Image")) ∈ MAGIC_BYTES ∧
    identify_file (fun _ => none) "x.bin"
        { pathExists := true, readError := none,
          content := [0xff, 0xd8, 0xff, 1, 2], size := 10 } =
      .ok { filename := "x.bin", filesize_bytes := 10, filesize := "10.0 B",
            extension := "BIN", filetype := "JPEG", category := "Image",
            mime_type := "application/octet-stream", detection_method := "magic_bytes" } :=
  ⟨by decide,
   signature_match_takes_precedence.1 (fun _ => none) "x.bin"
     { pathExists := true, readError := none,
       content := [0xff, 0xd8, 0xff, 1, 2], size := 10 }
     ([0xff, 0xd8, 0xff], ("JPEG", "Image")) rfl rfl (by decide) (by decide)⟩

/-- C1 counterexample to the claim as stated: on the PNG scenario the
code reports `detection_method = "magic_bytes"`, not "signature". -/
theorem signature_method_string_counterexample :
    identify_file (fun _ => none) "photo.txt"
        { pathExists := true, readError := none,
          content := [0x89, 0x50, 0x4E, 0x47, 0x0D, 0x0A, 0x1A, 0x0A, 0, 0, 0, 0],
          size := 2048 } ≠
      .ok { filename := "photo.txt", filesize_bytes := 2048, filesize := "2.0 KB",
            extension := "TXT", filetype := "PNG", category := "Image",
            mime_type := "application/octet-stream", detection_method := "signature" } ∧
    identify_file (fun _ => none) "photo.txt"
        { pathExists := true, readError := none,
          content := [0x89, 0x50, 0x4E, 0x47, 0x0D, 0x0A, 0x1A, 0x0A, 0, 0, 0, 0],
          size := 2048 } =
      .ok { filename := "photo.txt", filesize_bytes := 2048, filesize := "2.0 KB",
            extension := "TXT", filetype := "PNG", category := "Image",
            mime_type := "application/octet-stream", detection_method := "magic_bytes" } :=
  ⟨by decide, by decide⟩

/-- C4: whenever the signature step does not match, `identify_file`
sets `detection_method` to "extension" — including when the extension
lookup also misses — and in particular never to "signature" there. -/
theorem no_signature_match_method_extension :
    ∀ (mg : String → Option String) (fname : String) (st : FileState)
      (r : ClassificationResult),
      findMagic (st.content.take 1024) = none →
      identify_file mg fname st = .ok r →
      r.detection_method = "extension" ∧ r.detection_method ≠ "signature" := by
  intro mg fname st r hm hok
  cases hb : st.pathExists with
  | false => simp [identify_file, hb] at hok
  | true =>
    cases hre : st.readError with
    | some e => simp [identify_file, hb, hre] at hok
    | none =>
      simp [identify_file, hb, hre, hm] at hok
      subst hok
      exact ⟨rfl, fun hcontra => by simp at hcontra⟩

/-- Witness for C4 at header [0, 1, 2, 3] and filename "file.xyz". -/
theorem no_signature_match_method_extension_witness :
    findMagic (List.take 1024 [0, 1, 2, 3]) = none ∧
    identify_file (fun _ => none) "file.xyz"
        { pathExists := true, readError := none, content := [0, 1, 2, 3], size := 0 } =
      .ok { filename := "file.xyz", filesize_bytes := 0, filesize := "0.0 B",
            extension := "XYZ", filetype := "UNKNOWN", category := "Unknown",
            mime_type := "application/octet-stream", detection_method := "extension" } ∧
    "extension" = "extension" ∧ "extension" ≠ "signature" :=
  ⟨by decide, by decide,
   no_signature_match_method_extension (fun _ => none) "file.xyz"
     { pathExists := true, readError := none, content := [0, 1, 2, 3], size := 0 }
     { filename := "file.xyz", filesize_bytes := 0, filesize := "0.0 B",
       extension := "XYZ", filetype := "UNKNOWN", category := "Unknown",
       mime_type := "application/octet-stream", detection_method := "extension" }
     (by decide) (by decide)⟩

/-- C5 (amended): for a header matching no signature and a filename
whose extension — `path.suffix[1:].lower()`, i.e. the lowercased part
after the last '.', except that a leading or trailing dot yields no
extension — is a key of the extension table, `identify_file` returns
that entry's label and category. -/
theorem extension_fallback (mg : String → Option String) (fname : String)
    (st : FileState) (l c : String)
    (hex : st.pathExists = true) (hre : st.readError = none)
    (hm : findMagic (st.content.take 1024) = none)
    (hx : EXTENSION_MAP.lookup (fileExt fname) = some (l, c)) :
    identify_file mg fname st = .ok {
      filename := fname, filesize_bytes := st.size,
      filesize := format_size st.size, extension := extUpper (fileExt fname),
      filetype := l, category := c,
      mime_type := (mg fname).getD "application/octet-stream",
      detection_method := "extension" } := by
  simp [identify_file, hex, hre, hm, hx]

/-- Witness for C5 at filename "notes.v" and header [0, 1]. -/
theorem extension_fallback_witness :
    findMagic (List.take 1024 [0, 1]) = none ∧
    EXTENSION_MAP.lookup (fileExt "notes.v") = some ("Verilog", "HDL") ∧
    identify_file (fun _ => none) "notes.v"
        { pathExists := true, readError := none, content := [0, 1], size := 500 } =
      .ok { filename := "notes.v", filesize_bytes := 500, filesize := "500.0 B",
            extension := "V", filetype := "Verilog", category := "HDL",
            mime_type := "application/octet-stream", detection_method := "extension" } :=
  ⟨by decide, by decide,
   extension_fallback (fun _ => none) "notes.v"
     { pathExists := true, readError := none, content := [0, 1], size := 500 }
     "Verilog" "HDL" rfl rfl (by decide) (by decide)⟩

/-- C5 counterexample to the claim as stated: filename ".png" has
"png" — a key of the extension table — after its last '.', yet the code
(via `pathlib` suffix semantics) sees no extension and returns
UNKNOWN/Unknown instead of PNG/Image. -/
theorem extension_fallback_counterexample :
    extensionPerSpec ".png" = "png" ∧
    EXTENSION_MAP.lookup "png" = some ("PNG", "Image") ∧
    findMagic (List.take 1024 [0, 1, 2, 3]) = none ∧
    identify_file (fun _ => none) ".png"
        { pathExists := true, readError := none, content := [0, 1, 2, 3], size := 7 } =
      .ok { filename := ".png", filesize_bytes := 7, filesize := "7.0 B",
            extension := "", filetype := "UNKNOWN", category := "Unknown",
            mime_type := "application/octet-stream", detection_method := "extension" } :=
  ⟨by decide, by decide, by decide, by decide⟩

/-- C6: for a header matching no signature and an extension the table
does not know, `identify_file` returns label "UNKNOWN" and category
"Unknown"; the scenario with filename "file.xyz" and size 0 also gives
formatted size "0.0 B". -/
theorem unknown_fallback :
    (∀ (mg : String → Option String) (fname : String) (st : FileState),
      st.pathExists = true → st.readError = none →
      findMagic (st.content.take 1024) = none →
      EXTENSION_MAP.lookup (fileExt fname) = none →
      identify_file mg fname st = .ok {
        filename := fname, filesize_bytes := st.size,
        filesize := format_size st.size, extension := extUpper (fileExt fname),
        filetype := "UNKNOWN", category := "Unknown",
        mime_type := (mg fname).getD "application/octet-stream",
        detection_method := "extension" }) ∧
    identify_file (fun _ => none) "file.xyz"
        { pathExists := true, readError := none, content := [7, 8, 9], size := 0 } =
      .ok { filename := "file.xyz", filesize_bytes := 0, filesize := "0.0 B",
            extension := "XYZ", filetype := "UNKNOWN", category := "Unknown",
            mime_type := "application/octet-stream", detection_method := "extension" } :=
  ⟨fun mg fname st hex hre hm hx => by simp [identify_file, hex, hre, hm, hx],
   by decide⟩

/-- Witness for C6 at filename "data.qqq" and header [42]. -/
theorem unknown_fallback_witness :
    findMagic (List.take 1024 [42]) = none ∧
    EXTENSION_MAP.lookup (fileExt "data.qqq") = none ∧
    identify_file (fun _ => none) "data.qqq"
        { pathExists := true, readError := none, content := [42], size := 3 } =
      .ok { filename := "data.qqq", filesize_bytes := 3, filesize := "3.0 B",
            extension := "QQQ", filetype := "UNKNOWN", category := "Unknown",
            mime_type := "application/octet-stream", detection_method := "extension" } :=
  ⟨by decide, by decide,
   unknown_fallback.1 (fun _ => none) "data.qqq"
     { pathExists := true, readError := none, content := [42], size := 3 }
     rfl rfl (by decide) (by decide)⟩

/-- C7: an absent or unreadable source file makes `identify_file`
return an error dict carrying a descriptive message — a data value, not
a raised fault (the embedding is a total function into
`IdentifyResult`). -/
theorem unreadable_source_error :
    ∀ (mg : String → Option String) (fname : String) (st : FileState),
      (st.pathExists = false →
        identify_file mg fname st = .error ("File not found: " ++ fname)) ∧
      (∀ e, st.readError = some e → st.pathExists = true →
        identify_file mg fname st = .error ("Cannot read file: " ++ e)) := by
  intro mg fname st
  constructor
  · intro h
    simp [identify_file, h]
  · intro e he h
    simp [identify_file, h, he]

/-- Witness for C7: a missing file and an unreadable file. -/
theorem unreadable_source_error_witness :
    identify_file (fun _ => none) "gone.txt"
        { pathExists := false, readError := none, content := [], size := 0 } =
      .error ("File not found: " ++ "gone.txt") ∧
    identify_file (fun _ => none) "locked.txt"
        { pathExists := true, readError := some "Permission denied", content := [], size := 0 } =
      .error ("Cannot read file: " ++ "Permission denied") :=
  ⟨(unreadable_source_error (fun _ => none) "gone.txt"
      { pathExists := false, readError := none, content := [], size := 0 }).1 rfl,
   (unreadable_source_error (fun _ => none) "locked.txt"
      { pathExists := true, readError := some "Permission denied", content := [], size := 0 }).2
     "Permission denied" rfl rfl⟩

/-- C9: each failure of the JDoodle proxy maps to a structured JSON
error with its own status — timeout → 504, network/request failure →
502, any other exception → 500 — and `run_code` is a total function, so
no fault escapes. -/
theorem run_code_failure_mapping :
    ∀ (d : RunRequest) (e1 e2 : String),
      d.script ≠ none → d.language ≠ none →
      run_code (some d) UpstreamOutcome.timeout =
        .errorJson "JDoodle API timeout" 504 ∧
      run_code (some d) (UpstreamOutcome.requestError e1) =
        .errorJson ("JDoodle API error: " ++ e1) 502 ∧
      run_code (some d) (UpstreamOutcome.otherError e2) =
        .errorJson e2 500 ∧
      (504 : Nat) ≠ 502 ∧ (504 : Nat) ≠ 500 ∧ (502 : Nat) ≠ 500 := by
  intro d e1 e2 hs hl
  have hcond : ¬ (d.script = none ∨ d.language = none) := by
    rintro (h | h)
    · exact hs h
    · exact hl h
  refine ⟨by simp [run_code, hcond], by simp [run_code, hcond],
    by simp [run_code, hcond], by decide, by decide, by decide⟩

/-- Witness for C9 at a well-formed request. -/
theorem run_code_failure_mapping_witness :
    (RunRequest.mk (some "print(1)") (some "python3") none).script ≠ none ∧
    (RunRequest.mk (some "print(1)") (some "python3") none).language ≠ none ∧
    (run_code (some (RunRequest.mk (some "print(1)") (some "python3") none))
        UpstreamOutcome.timeout = .errorJson "JDoodle API timeout" 504 ∧
      run_code (some (RunRequest.mk (some "print(1)") (some "python3") none))
        (UpstreamOutcome.requestError "boom") =
          .errorJson ("JDoodle API error: " ++ "boom") 502 ∧
      run_code (some (RunRequest.mk (some "print(1)") (some "python3") none))
        (UpstreamOutcome.otherError "oops") = .errorJson "oops" 500 ∧
      (504 : Nat) ≠ 502 ∧ (504 : Nat) ≠ 500 ∧ (502 : Nat) ≠ 500) :=
  ⟨by decide, by decide,
   run_code_failure_mapping (RunRequest.mk (some "print(1)") (some "python3") none)
     "boom" "oops" (by decide) (by decide)⟩

/-- C10: an uploaded entry with an empty filename is skipped entirely
by `/analyze` — inserting one anywhere leaves both the result list and
the stats unchanged, and the stats are those of the results of the
non-empty-named entries. -/
theorem analyze_skips_empty_filenames :
    ∀ (mimeGuess : String → Option String) (sec : String → String)
      (xs ys : List Upload) (u : Upload), u.filename = "" →
      analyze_files mimeGuess sec (xs ++ u :: ys) = analyze_files mimeGuess sec (xs ++ ys) ∧
      (analyze_files mimeGuess sec (xs ++ u :: ys)).2 =
        computeStats (analyze_files mimeGuess sec (xs ++ ys)).1 := by
  intro mimeGuess sec xs ys u hu
  have hfold : analyze_files mimeGuess sec (xs ++ u :: ys) =
      analyze_files mimeGuess sec (xs ++ ys) := by
    unfold analyze_files
    rw [List.foldl_append, List.foldl_append, List.foldl_cons, if_pos hu]
  exact ⟨hfold, by rw [hfold]; rfl⟩

/-- Witness for C10: one empty-named entry between two real ones. -/
theorem analyze_skips_empty_filenames_witness :
    (Upload.mk "" [9]).filename = "" ∧
    (analyze_files (fun _ => none) id ([Upload.mk "a.png" [1, 2]] ++ Upload.mk "" [9] :: [Upload.mk "b.v" []]) =
        analyze_files (fun _ => none) id ([Upload.mk "a.png" [1, 2]] ++ [Upload.mk "b.v" []]) ∧
      (analyze_files (fun _ => none) id ([Upload.mk "a.png" [1, 2]] ++ Upload.mk "" [9] :: [Upload.mk "b.v" []])).2 =
        computeStats (analyze_files (fun _ => none) id ([Upload.mk "a.png" [1, 2]] ++ [Upload.mk "b.v" []])).1) :=
  ⟨rfl,
   analyze_skips_empty_filenames (fun _ => none) id
     [Upload.mk "a.png" [1, 2]] [Upload.mk "b.v" []] (Upload.mk "" [9]) rfl⟩

theorem lookup_bumpCategory (acc : List (String × Nat)) (d c : String) :
    (bumpCategory acc d).lookup c =
      if c = d then some (((acc.lookup c).getD 0) + 1) else acc.lookup c := by
  induction acc with
  | nil =>
    by_cases h : c = d
    · subst h
      simp [bumpCategory, List.lookup]
    · have h1 : (c == d) = false := by simp [h]
      simp [bumpCategory, List.lookup, h1, h]
  | cons kv t ih =>
    obtain ⟨k, v⟩ := kv
    by_cases hkd : k = d
    · subst hkd
      by_cases hck : c = k
      · subst hck
        simp [bumpCategory, List.lookup]
      · have h1 : (c == k) = false := by simp [hck]
        simp [bumpCategory, List.lookup, h1, hck]
    · have h2 : (k == d) = false := by simp [hkd]
      by_cases hck : c = k
      · subst hck
        simp [bumpCategory, List.lookup, h2, hkd]
      · have h1 : (c == k) = false := by simp [hck]
        simp [bumpCategory, List.lookup, h2, h1, hck, ih]

theorem lookup_categoriesOf_fold (rs : List IdentifyResult)
    (acc : List (String × Nat)) (c : String) :
    (rs.foldl (fun a r => bumpCategory a (getCategory r)) acc).lookup c =
      if acc.lookup c = none ∧ rs.countP (fun r => getCategory r == c) = 0 then none
      else some (((acc.lookup c).getD 0) + rs.countP (fun r => getCategory r == c)) := by
  induction rs generalizing acc with
  | nil =>
    by_cases h : acc.lookup c = none
    · simp [h]
    · obtain ⟨v, hv⟩ := Option.ne_none_iff_exists'.mp h
      simp [hv]
  | cons r t ih =>
    rw [List.foldl_cons, ih, lookup_bumpCategory, List.countP_cons]
    by_cases hc : c = getCategory r
    · have hcat : (getCategory r == c) = true := by simp [hc]
      simp only [if_pos hc, hcat, if_true]
      by_cases hl : acc.lookup c = none
      · simp [hl]
        omega
      · obtain ⟨v, hv⟩ := Option.ne_none_iff_exists'.mp hl
        simp [hv]
        omega
    · have hcat : (getCategory r == c) = false := by
        simp only [beq_eq_false_iff_ne, ne_eq]
        exact fun h => hc h.symm
      simp only [if_neg hc, hcat, Bool.false_eq_true, if_false, Nat.add_zero]

/-- C3 (amended): the stats block returns count = list length, total
size = `format_size` of the sum of byte sizes with error entries
contributing 0, and a category mapping counting each result's category,
where an entry without a category is counted under "Unknown" (via
`r.get('category', 'Unknown')`), not omitted; three results with
categories Image, HDL, Image give mapping Image ↦ 2, HDL ↦ 1 and
count 3. -/
theorem aggregate_stats_characterization :
    (∀ rs : List IdentifyResult,
      (computeStats rs).count = rs.length ∧
      (computeStats rs).total_size = format_size ((rs.map getFilesizeBytes).sum)) ∧
    (∀ msg, getFilesizeBytes (.error msg) = 0) ∧
    (∀ msg, getCategory (.error msg) = "Unknown") ∧
    (∀ (rs : List IdentifyResult) (c : String),
      (computeStats rs).categories.lookup c =
        if rs.countP (fun r => getCategory r == c) = 0 then none
        else some (rs.countP (fun r => getCategory r == c))) ∧
    ((computeStats [
        IdentifyResult.ok { filename := "a.png", filesize_bytes := 1, filesize := "1.0 B",
                            extension := "PNG", filetype := "PNG", category := "Image",
                            mime_type := "m", detection_method := "extension" },
        IdentifyResult.ok { filename := "b.v", filesize_bytes := 2, filesize := "2.0 B",
                            extension := "V", filetype := "Verilog", category := "HDL",
                            mime_type := "m", detection_method := "extension" },
        IdentifyResult.ok { filename := "c.jpg", filesize_bytes := 3, filesize := "3.0 B",
                            extension := "JPG", filetype := "JPEG", category := "Image",
                            mime_type := "m", detection_method := "extension" }]).categories =
          [("Image", 2), ("HDL", 1)] ∧
      (computeStats [
        IdentifyResult.ok { filename := "a.png", filesize_bytes := 1, filesize := "1.0 B",
                            extension := "PNG", filetype := "PNG", category := "Image",
                            mime_type := "m", detection_method := "extension" },
        IdentifyResult.ok { filename := "b.v", filesize_bytes := 2, filesize := "2.0 B",
                            extension := "V", filetype := "Verilog", category := "HDL",
                            mime_type := "m", detection_method := "extension" },
        IdentifyResult.ok { filename := "c.jpg", filesize_bytes := 3, filesize := "3.0 B",
                            extension := "JPG", filetype := "JPEG", category := "Image",
                            mime_type := "m", detection_method := "extension" }]).count = 3) := by
  refine ⟨fun rs => ⟨rfl, rfl⟩, fun msg => rfl, fun msg => rfl, ?_, by decide, by decide⟩
  intro rs c
  have h := lookup_categoriesOf_fold rs [] c
  simpa [computeStats, categoriesOf] using h

/-- C3 counterexample to the claim as stated: a result carrying no
category (an error entry) is not omitted from the mapping — the code
counts it under "Unknown". -/
theorem aggregate_unknown_not_omitted_counterexample :
    (computeStats [IdentifyResult.error "boom"]).categories = [("Unknown", 1)] ∧
    (computeStats [IdentifyResult.error "boom"]).categories.lookup "Unknown" ≠ none :=
  ⟨by decide, by decide⟩
